import Mathlib

/-!
Verification of the interactive document layout engine of `vollmacht_all_2`
(`modules/pdf_interactive.py` and `modules/signature_utils.py`).

The Python code is shallowly embedded: page-coordinate floats become exact
rationals (`ℚ`), dynamically typed scalar values become the inductive `PyVal`,
dictionaries become association lists with `Option`-valued fields for optional
keys, and the drawing surface (`reportlab` canvas) becomes a trace of drawing
operations (`Op`).  External collaborators (PIL decode/trim, background file
loading) are parameters of the configuration: an oracle returning `Option`
models a fallible decode whose failure the code swallows.  Colour-setting
calls, which carry no geometry, are not recorded in the trace.
-/

/-- A dynamically typed scalar value as it appears in a value map or a layout
field: `none` models Python `None`, `bytes` models a raw image payload
(identified by a token that the decode oracle interprets). -/
inductive PyVal where
  | none : PyVal
  | str (s : String) : PyVal
  | bool (b : Bool) : PyVal
  | int (n : Int) : PyVal
  | bytes (id : Nat) : PyVal
  deriving DecidableEq, Repr

/-- Python truthiness of a scalar (`bool(x)`).  An image payload is modelled
as nonempty, hence truthy. -/
def pyTruthy : PyVal → Bool
  | .none => false
  | .str s => s ≠ ""
  | .bool b => b
  | .int n => n ≠ 0
  | .bytes _ => true

/-- Python `str(x)` on the modelled scalars.  The rendering of a bytes
payload is a stand-in; no claim depends on it. -/
def pyStr : PyVal → String
  | .none => "None"
  | .str s => s
  | .bool b => if b then "True" else "False"
  | .int n => toString n
  | .bytes _ => "bytes"

/-- Python `x or y` on scalars. -/
def pyOr (x y : PyVal) : PyVal := if pyTruthy x then x else y

/-- Python `a or b` where `a`, `b` are optional strings (an absent key reads
as `None`); the empty string is falsy.  Used for `f.get("value_from") or
f.get("name")`. -/
def strOr2 (a b : Option String) : Option String :=
  match a with
  | some s => if s = "" then b else some s
  | Option.none => b

/-- Python `o or d` where `o` is an optional string and `d` a literal
default, as in `(f.get("type") or "text")`. -/
def strOrD (o : Option String) (d : String) : String :=
  match o with
  | some s => if s = "" then d else s
  | Option.none => d

/-- Translation lookup `i18n.get(key, fallback)`. -/
def i18nGet (m : List (String × String)) (k fb : String) : String :=
  (m.lookup k).getD fb

/-- Value-map lookup `data.get(k)` where the key may itself be `None`
(`data.get(None)` misses because all stored keys are strings). -/
def lookupV (data : List (String × PyVal)) (k : Option String) : PyVal :=
  match k with
  | some s => (data.lookup s).getD .none
  | Option.none => .none

/-- Value-map lookup with an explicit default, `data.get(k, d)`. -/
def lookupD (data : List (String × PyVal)) (k : Option String) (d : PyVal) : PyVal :=
  match k with
  | some s => (data.lookup s).getD d
  | Option.none => d

/-- Python `str.lower()` on one character, modelled on the ASCII range
(every truthy token of the engine is ASCII or the case-less `✓`). -/
def pyLowerChar (c : Char) : Char :=
  if 'A' ≤ c ∧ c ≤ 'Z' then Char.ofNat (c.toNat + 32) else c

/-- Python `str.lower()`. -/
def pyLower (s : String) : String := ⟨s.data.map pyLowerChar⟩

/-- The whitespace alphabet stripped by Python `str.strip()` (ASCII part). -/
def isPyWs (c : Char) : Bool := c ∈ [' ', '\t', '\n', '\r', '\x0b', '\x0c']

/-- Python `str.strip()`: drop surrounding whitespace. -/
def pyStrip (s : String) : String :=
  ⟨((s.data.dropWhile isPyWs).reverse.dropWhile isPyWs).reverse⟩

/-- `_booly` (modules/pdf_interactive.py line 43):
`s = str(x or "").strip().lower(); return s in {...}`. -/
def booly (x : PyVal) : Bool :=
  let s := pyLower (pyStrip (pyStr (pyOr x (.str ""))))
  s ∈ ["1", "true", "y", "yes", "ja", "on", "x", "✓", "checked"]

/-- Python `str(v or "")`: the string form of a value, with every falsy
value collapsing to the empty string. -/
def valStr (v : PyVal) : String := if pyTruthy v then pyStr v else ""

/-- The aspect ratio computed by the layout renderer's image branch
(modules/pdf_interactive.py line 169): `aspect = h_img / float(w_img or 1)`. -/
def layoutAspect (w h : ℚ) : ℚ := h / (if w = 0 then 1 else w)

/-- The aspect ratio computed by the signature block builder
(modules/signature_utils.py line 50): `aspect = (h / w) if w else 1.0`. -/
def sigAspect (w h : ℚ) : ℚ := if w = 0 then 1 else h / w

/-- The "fit" computation of the layout renderer (modules/pdf_interactive.py
lines 169-174): `dw = w_box; dh = dw * aspect; if dh > h_box: dh = h_box;
dw = dh / (aspect or 1)`.  Returns `(dw, dh)`. -/
def fitLayout (wImg hImg boxW boxH : ℚ) : ℚ × ℚ :=
  let aspect := layoutAspect wImg hImg
  let dw := boxW
  let dh := dw * aspect
  if dh > boxH then (boxH / (if aspect = 0 then 1 else aspect), boxH)
  else (dw, dh)

/-- The "fit" computation of the signature block builder
(modules/signature_utils.py lines 49-55): same shape, but the degenerate
guard sits on the aspect itself and the clamped width divides by the raw
aspect. -/
def fitSig (wImg hImg boxW boxH : ℚ) : ℚ × ℚ :=
  let aspect := sigAspect wImg hImg
  let outW := boxW
  let outH := outW * aspect
  if outH > boxH then (boxH / aspect, boxH)
  else (outW, outH)

/-- The scale-mode dispatch shared by both image branches: `stretch` fills
the box, anything else fits (mode strings arrive lowercased). -/
def scaleDims (mode : String) (wImg hImg boxW boxH : ℚ) : ℚ × ℚ :=
  if mode = "stretch" then (boxW, boxH) else fitLayout wImg hImg boxW boxH

example : booly (.str " Ja ") = true := by decide
example : booly (.str "0") = false := by decide
example : booly .none = false := by decide
example : booly (.bool false) = false := by decide
example : fitLayout 300 100 150 40 = (120, 40) := by norm_num [fitLayout, layoutAspect]

/-- One entry of a layout document's `fields` list (`layout.json`).  Every
key the renderer reads is a field here; `Option.none` models an absent key.
`checked` conflates an absent key with an explicit JSON `null` — the code
only ever tests `checked is None`, which cannot tell them apart.  For
`checked_from` the code tests key presence (`"checked_from" in f`), so the
present-but-null case is kept: `some Option.none`. -/
structure LField where
  ftype : Option String := Option.none
  page : Int := 1
  name : Option String := Option.none
  x : Option ℚ := Option.none
  y : Option ℚ := Option.none
  w : Option ℚ := Option.none
  h : Option ℚ := Option.none
  x1 : Option ℚ := Option.none
  y1 : Option ℚ := Option.none
  x2 : Option ℚ := Option.none
  y2 : Option ℚ := Option.none
  width : Option ℚ := Option.none
  size : Option Int := Option.none
  bold : Bool := false
  text : Option String := Option.none
  text_i18n : Option String := Option.none
  label_i18n : Option String := Option.none
  value_from : Option String := Option.none
  default : Option String := Option.none
  checked : Option PyVal := Option.none
  checked_from : Option (Option String) := Option.none
  scale_mode : Option String := Option.none
  trim : Bool := true
  deriving DecidableEq, Repr

/-- A drawing operation appended to the canvas.  Colour- and border-style
calls carry no geometry and are not recorded; `bgImage` records a
successfully drawn full-page background by its page index. -/
inductive Op where
  | setFont (font : String) (sz : ℚ) : Op
  | drawString (x y : ℚ) (txt : String) : Op
  | drawLine (x1 y1 x2 y2 lw : ℚ) : Op
  | rect (x y w h : ℚ) (filled : Bool) : Op
  | fillBox (x y w h : ℚ) : Op
  | drawImage (x y w h : ℚ) : Op
  | paragraph (x y w h : ℚ) (txt : String) : Op
  | acroCheckbox (nm : Option String) (x y sz : ℚ) (checked : Bool) : Op
  | acroTextfield (nm : Option String) (x y w h : ℚ) (value : String) (multiline : Bool) : Op
  | bgImage (idx : Nat) : Op
  | showPage : Op
  deriving DecidableEq, Repr

/-- Everything a render call closes over: translation table, value map,
mode flags, the PIL decode oracle (`decodeImg id trimFlag` returns the
decoded — and, when asked, trimmed — image size, or `Option.none` for a
decode failure the code swallows) and the background-load oracle. -/
structure RenderCfg where
  i18n : List (String × String) := []
  data : List (String × PyVal) := []
  flatten : Bool := false
  draw_boxes : Bool := true
  backgrounds : List String := []
  decodeImg : Nat → Bool → Option (ℚ × ℚ) := fun _ _ => Option.none
  bgOk : Nat → Bool := fun _ => true

/-- A layout document: `draw_boxes` flag, field list, background paths. -/
structure Layout where
  draw_boxes : Bool := true
  fields : List LField := []
  backgrounds : List String := []

/-- `(f.get("type") or "text").lower()`. -/
def kindOf (f : LField) : String := pyLower (strOrD f.ftype "text")

/-- The checkbox branch's resolution of the mutable `checked` variable
(modules/pdf_interactive.py lines 182-187): start from the literal
`f.get("checked")`; if `"checked_from" in f`, overwrite with the coerced
lookup; else if still `None`, take the coerced `value_from`-or-`name`
lookup. -/
def resolveCheckedVal (f : LField) (data : List (String × PyVal)) : PyVal :=
  match f.checked_from with
  | some k => .bool (booly (lookupV data k))
  | Option.none =>
    match f.checked with
    | some v => v
    | Option.none => .bool (booly (lookupV data (strOr2 f.value_from f.name)))

/-- The boolean check state actually used by both the flattened drawing
(`if checked:`) and the interactive widget (`checked=bool(checked)`). -/
def resolveChecked (f : LField) (data : List (String × PyVal)) : Bool :=
  pyTruthy (resolveCheckedVal f data)

/-- `f["x"], f["y"], f["w"], f["h"]` — raises `KeyError` when any is
missing (the structural error of the engine). -/
def getBox (f : LField) : Except String (ℚ × ℚ × ℚ × ℚ) :=
  match f.x, f.y, f.w, f.h with
  | some a, some b, some c, some d => .ok (a, b, c, d)
  | _, _, _, _ => .error "KeyError"

/-- `_text_from_i18n`: use the i18n key only when it is present and truthy,
falling back to the literal `text`. -/
def textFromI18n (m : List (String × String)) (f : LField) : String :=
  match f.text_i18n with
  | some k => if k = "" then f.text.getD "" else i18nGet m k (f.text.getD "")
  | Option.none => f.text.getD ""

/-- The boxed kinds' drawing operations (modules/pdf_interactive.py lines
145-253), once the `(x, y, w, h)` box has been read successfully. -/
def fieldBodyOps (cfg : RenderCfg) (f : LField) (x y w h : ℚ) : List Op :=
  let kind := kindOf f
  if kind = "rect" then [.rect x y w h false]
  else if kind = "image" then
    let raw := lookupV cfg.data (strOr2 f.value_from f.name)
    if pyTruthy raw then
      match raw with
      | .bytes id =>
        match cfg.decodeImg id f.trim with
        | some (wImg, hImg) =>
          let dims := scaleDims (pyLower (strOrD f.scale_mode "fit")) wImg hImg w h
          [.drawImage x y dims.1 dims.2]
        | Option.none => []
      | _ => []
    else []
  else if kind = "checkbox" then
    let checked := resolveChecked f cfg.data
    let s := min w h
    if cfg.flatten then
      [.rect x y s s false] ++
      (if checked then
        [.setFont "Helvetica" 12, .drawString (x + 2) (y + 1) "✓", .setFont "Helvetica" 10]
      else [])
    else
      (if cfg.draw_boxes then [.fillBox x y s s] else []) ++
      [.acroCheckbox f.name x y s checked]
  else
    let multiline := kind = "textarea" ∨ kind = "multiline"
    let value := valStr (lookupD cfg.data (strOr2 f.value_from f.name) (.str (f.default.getD "")))
    if cfg.flatten then
      if multiline then
        [.paragraph (x + 1) (y + 1) (w - 2) (h - 2) (value.replace "\n" "<br/>")]
      else
        [.setFont "Helvetica" 10, .drawString (x + 1) (y + h - 12) value]
    else
      (if cfg.draw_boxes then [.fillBox x y w h] else []) ++
      [.acroTextfield f.name x y w h value multiline]

/-- One field's drawing operations (modules/pdf_interactive.py lines
127-253), after the page cursor has advanced.  A missing box on a kind
that needs one is the structural `KeyError`; a failed image decode yields
no operation. -/
def renderFieldOps (cfg : RenderCfg) (f : LField) : Except String (List Op) :=
  let kind := kindOf f
  if kind = "label" then
    .ok [.setFont (if f.bold then "Helvetica-Bold" else "Helvetica") ((f.size.getD 10 : Int) : ℚ),
         .drawString (f.x.getD 0) (f.y.getD 0) (textFromI18n cfg.i18n f),
         .setFont "Helvetica" 10]
  else if kind = "line" then
    .ok [.drawLine (f.x1.getD 0) (f.y1.getD 0) (f.x2.getD 0) (f.y2.getD 0) (f.width.getD (4/5))]
  else
    match getBox f with
    | .error e => .error e
    | .ok (x, y, w, h) => .ok (fieldBodyOps cfg f x y w h)

/-- `_draw_background(idx)`: best effort — draw only when the index is in
range and the load succeeds. -/
def bgOps (cfg : RenderCfg) (idx : Nat) : List Op :=
  if idx < cfg.backgrounds.length ∧ cfg.bgOk idx then [Op.bgImage idx] else []

/-- The `while page > current_page` loop (modules/pdf_interactive.py lines
121-125): each turn emits a page boundary, resets the font, increments the
counter and draws the new page's background. -/
def pageAdvance (cfg : RenderCfg) (cp page : Int) : Int × List Op :=
  if _h : page > cp then
    let rest := pageAdvance cfg (cp + 1) page
    (rest.1, ([Op.showPage, Op.setFont "Helvetica" 10] ++ bgOps cfg cp.toNat) ++ rest.2)
  else (cp, [])
termination_by (page - cp).toNat
decreasing_by simp_wf; omega

/-- The field loop of `_render_by_layout_json`, carrying the page cursor. -/
def renderLoop (cfg : RenderCfg) (cp : Int) : List LField → Except String (List Op)
  | [] => .ok []
  | f :: rest =>
    let adv := pageAdvance cfg cp f.page
    match renderFieldOps cfg f with
    | .error e => .error e
    | .ok fops =>
      match renderLoop cfg adv.1 rest with
      | .error e => .error e
      | .ok rops => .ok (adv.2 ++ fops ++ rops)

/-- `_render_by_layout_json`: initial font, first page's background, then
the field loop from page 1. -/
def renderByLayout (cfg : RenderCfg) (L : Layout) : Except String (List Op) :=
  let c := { cfg with draw_boxes := L.draw_boxes, backgrounds := L.backgrounds }
  match renderLoop c 1 L.fields with
  | .error e => .error e
  | .ok ops => .ok ([Op.setFont "Helvetica" 10] ++ bgOps c 0 ++ ops)

/-- The page-cursor value after consuming a field list (each field lifts
the cursor to `max cp page`). -/
def pagesTrace (cp : Int) : List LField → Int
  | [] => cp
  | f :: rest => pagesTrace (max cp f.page) rest

/-- Number of page boundaries emitted inside the trace. -/
def countSP : List Op → Nat
  | [] => 0
  | Op.showPage :: rest => countSP rest + 1
  | _ :: rest => countSP rest

/-- Structural well-formedness: every kind other than `label` and `line`
requires the full `(x, y, w, h)` box (the code indexes them directly). -/
def structOkB (f : LField) : Bool :=
  kindOf f = "label" ∨ kindOf f = "line" ∨
    (f.x.isSome ∧ f.y.isSome ∧ f.w.isSome ∧ f.h.isSome)

/-- One field of the generic fallback schema. -/
structure SField where
  key : String := ""
  ftype : Option String := Option.none
  label_i18n : Option String := Option.none
  deriving DecidableEq, Repr

/-- One schema section: a title and its fields. -/
structure FormSection where
  key : String := ""
  title_i18n : Option String := Option.none
  fields : List SField := []
  deriving DecidableEq, Repr

/-- The generic schema consumed by the auto-layout renderer.  The two
booleans model key presence of `stadt_default` / `date_placeholder` in
`schema["misc"]`. -/
structure Schema where
  sections : List FormSection := []
  stadt_default : Bool := false
  date_placeholder : Bool := false
  deriving DecidableEq, Repr

/-- The auto-layout renderer's options and inputs
(`_render_auto_layout`, modules/pdf_interactive.py lines 256-296), with the
code's documented defaults.  A4 in points is exact: `210·72/25.4` by
`297·72/25.4`. -/
structure AutoCfg where
  i18n : List (String × String) := []
  data : List (String × PyVal) := []
  flatten : Bool := false
  leftMargin : ℚ := 40
  rightMargin : ℚ := 40
  topMargin : ℚ := 36
  bottomMargin : ℚ := 36
  draw_boxes : Bool := true
  title_i18n : String := "app.title"
  pageW : ℚ := 75600 / 127
  pageH : ℚ := 106920 / 127

/-- `x_label = left`. -/
def AutoCfg.xLabel (cfg : AutoCfg) : ℚ := cfg.leftMargin

/-- `x_field = left + 250`. -/
def AutoCfg.xField (cfg : AutoCfg) : ℚ := cfg.leftMargin + 250

/-- `field_w = page_w - right - x_field`. -/
def AutoCfg.fieldW (cfg : AutoCfg) : ℚ := cfg.pageW - cfg.rightMargin - cfg.xField

/-- `draw_boxes = bool(...) and (not flatten)`. -/
def AutoCfg.dB (cfg : AutoCfg) : Bool := cfg.draw_boxes && !cfg.flatten

/-- `new_page()`: page boundary plus font reset (the cursor reset to
`page_h - top` is handled by the caller `stepRow`). -/
def newPageOps : List Op := [Op.showPage, Op.setFont "Helvetica" 10]

/-- One row of the auto layout, with its caption and composite field name
already resolved (the loop resolves them before dispatching). -/
inductive Row where
  | secTitle (t : String) : Row
  | rtext (label nm : String) : Row
  | rtextarea (label nm : String) (rows : Nat) : Row
  | rcheckbox (label nm : String) : Row
  | gap (d : ℚ) : Row
  | miscRow : Row
  deriving DecidableEq, Repr

/-- Field-type dispatch of the section loop (lines 396-408): text-likes and
unrecognized types become text rows, textarea-likes five-row areas,
checkbox-likes checkbox rows. -/
def fieldRow (i18n : List (String × String)) (sec : FormSection) (fld : SField) : Row :=
  let key := fld.key
  let nm := sec.key ++ "_" ++ key
  let label := i18nGet i18n (fld.label_i18n.getD key) key
  let ftype := pyLower (strOrD fld.ftype "text")
  if ftype = "text" ∨ ftype = "input" ∨ ftype = "string" then .rtext label nm
  else if ftype = "textarea" ∨ ftype = "multiline" then .rtextarea label nm 5
  else if ftype = "checkbox" ∨ ftype = "bool" ∨ ftype = "boolean" then .rcheckbox label nm
  else .rtext label nm

/-- The row stream the auto-layout pass consumes: per section a bold title,
the field rows and a 6pt gap; then the place/date row exactly when the
schema's misc declares a default city or a date placeholder. -/
def rowsOf (i18n : List (String × String)) (schema : Schema) : List Row :=
  (schema.sections.flatMap fun sec =>
    Row.secTitle (i18nGet i18n (sec.title_i18n.getD sec.key) sec.key) ::
      (sec.fields.map (fieldRow i18n sec) ++ [Row.gap 6]))
  ++ (if schema.stadt_default ∨ schema.date_placeholder then [Row.miscRow] else [])

/-- One row's rendering (the bodies of `draw_section`, `draw_text`,
`draw_textarea`, `draw_checkbox`, the section gap and the trailing
place/date block).  Every drawing row first checks the remaining space and
forces a page break when its height would cross the bottom margin. -/
def stepRow (cfg : AutoCfg) (y0 : ℚ) : Row → ℚ × List Op
  | .secTitle t =>
    let p := if y0 - 20 < cfg.bottomMargin then (cfg.pageH - cfg.topMargin, newPageOps) else (y0, [])
    let y := p.1
    (y - 8, p.2 ++ [.setFont "Helvetica-Bold" 11, .drawString cfg.xLabel (y - 12) t,
                    .setFont "Helvetica" 10])
  | .rtext label nm =>
    let p := if y0 - 18 < cfg.bottomMargin then (cfg.pageH - cfg.topMargin, newPageOps) else (y0, [])
    let y := p.1
    let body :=
      if cfg.flatten then
        [Op.drawString (cfg.xField + 1) (y - 12) (valStr ((cfg.data.lookup nm).getD (.str "")))]
      else
        (if cfg.dB then [Op.fillBox cfg.xField (y - 16) cfg.fieldW 16] else []) ++
        [Op.acroTextfield (some nm) cfg.xField (y - 16) cfg.fieldW 16
          (pyStr ((cfg.data.lookup nm).getD (.str ""))) false]
    (y - 18, p.2 ++ [Op.drawString cfg.xLabel (y - 12) (label ++ ":")] ++ body)
  | .rtextarea label nm rows =>
    let hgt : ℚ := max (16 * (rows : ℚ) + 4) 36
    let p := if y0 - hgt < cfg.bottomMargin then (cfg.pageH - cfg.topMargin, newPageOps) else (y0, [])
    let y := p.1
    let value := (cfg.data.lookup nm).getD (.str "")
    let body :=
      if cfg.flatten then
        [Op.paragraph (cfg.xField + 1) (y - hgt + 6) (cfg.fieldW - 2) (hgt - 8)
          ((valStr value).replace "\n" "<br/>")]
      else
        (if cfg.dB then [Op.fillBox cfg.xField (y - hgt + 4) cfg.fieldW (hgt - 8)] else []) ++
        [Op.acroTextfield (some nm) cfg.xField (y - hgt + 4) cfg.fieldW (hgt - 8)
          (pyStr value) true]
    (y - (hgt + 4), p.2 ++ [Op.drawString cfg.xLabel (y - 12) (label ++ ":")] ++ body)
  | .rcheckbox label nm =>
    let p := if y0 - 18 < cfg.bottomMargin then (cfg.pageH - cfg.topMargin, newPageOps) else (y0, [])
    let y := p.1
    let checked := booly ((cfg.data.lookup nm).getD .none)
    let body :=
      if cfg.flatten then
        [Op.rect cfg.xField (y - 14) 12 12 false] ++
        (if checked then
          [Op.setFont "Helvetica" 12, Op.drawString (cfg.xField + 2) (y - 13) "✓",
           Op.setFont "Helvetica" 10]
        else []) ++
        [Op.drawString (cfg.xField + 18) (y - 12) label]
      else
        (if cfg.dB then [Op.fillBox cfg.xField (y - 14) 12 12] else []) ++
        [Op.acroCheckbox (some nm) cfg.xField (y - 14) 12 checked,
         Op.drawString (cfg.xField + 18) (y - 12) label]
    (y - 18, p.2 ++ body)
  | .gap d => (y0 - d, [])
  | .miscRow =>
    let p := if y0 - 40 < cfg.bottomMargin then (cfg.pageH - cfg.topMargin, newPageOps) else (y0, [])
    let y := p.1
    let stadtOps :=
      if cfg.flatten then
        [Op.drawString (cfg.xField + 1) (y - 12) (valStr ((cfg.data.lookup "stadt").getD (.str "")))]
      else
        (if cfg.dB then [Op.fillBox cfg.xField (y - 16) (cfg.fieldW / 2 - 10) 16] else []) ++
        [Op.acroTextfield (some "stadt") cfg.xField (y - 16) (cfg.fieldW / 2 - 10) 16
          (pyStr ((cfg.data.lookup "stadt").getD (.str ""))) false]
    let datumOps :=
      if cfg.flatten then
        [Op.drawString (cfg.xField + cfg.fieldW / 2 + 52) (y - 12)
          (valStr ((cfg.data.lookup "datum").getD (.str "")))]
      else
        (if cfg.dB then
          [Op.fillBox (cfg.xField + cfg.fieldW / 2 + 50) (y - 16) (cfg.fieldW / 2 - 50) 16]
        else []) ++
        [Op.acroTextfield (some "datum") (cfg.xField + cfg.fieldW / 2 + 50) (y - 16)
          (cfg.fieldW / 2 - 50) 16 (pyStr ((cfg.data.lookup "datum").getD (.str ""))) false]
    (y, p.2 ++ [Op.drawString cfg.xLabel (y - 12) (i18nGet cfg.i18n "field.ort" "Ort" ++ ":")] ++
        stadtOps ++
        [Op.drawString (cfg.xField + cfg.fieldW / 2 + 10) (y - 12)
          (i18nGet cfg.i18n "field.datum" "Datum" ++ ":")] ++
        datumOps)

/-- Fold of `stepRow` over a row stream, threading the vertical cursor. -/
def runRows (cfg : AutoCfg) : ℚ → List Row → ℚ × List Op
  | y, [] => (y, [])
  | y, r :: rs =>
    let s := stepRow cfg y r
    let t := runRows cfg s.1 rs
    (t.1, s.2 ++ t.2)

/-- The document title block: bold 14pt caption at the top margin, then the
font reset; the cursor then sits 28pt below the top margin baseline. -/
def titleOps (cfg : AutoCfg) : List Op :=
  [Op.setFont "Helvetica-Bold" 14,
   Op.drawString cfg.xLabel (cfg.pageH - cfg.topMargin) (i18nGet cfg.i18n cfg.title_i18n "Interactive Form"),
   Op.setFont "Helvetica" 10]

/-- `_render_auto_layout`: title block, then the row stream from
`y = page_h - top - 28`. -/
def autoOps (cfg : AutoCfg) (schema : Schema) : List Op :=
  titleOps cfg ++ (runRows cfg (cfg.pageH - cfg.topMargin - 28) (rowsOf cfg.i18n schema)).2

/-- `build_interactive_pdf`: with an explicit layout the layout-driven
renderer runs (and its structural errors propagate before any bytes
exist); otherwise the auto layout runs, which never fails.  `rcfg` and
`acfg` carry the same caller-supplied i18n/data/flatten to whichever
branch executes. -/
def buildInteractivePdf (layoutOpt : Option Layout) (rcfg : RenderCfg) (acfg : AutoCfg)
    (schema : Schema) : Except String (List Op) :=
  match layoutOpt with
  | some L => renderByLayout rcfg L
  | Option.none => .ok (autoOps acfg schema)

/-! ## Theorems -/

/-- The priority chain of the claim C3, written out in its own words: a
present `checked_from` key decides via coerced lookup; else a present
literal `checked` decides; else the `value_from`-or-`name` lookup decides
via coercion. -/
def specCheckState (f : LField) (data : List (String × PyVal)) : Bool :=
  match f.checked_from with
  | some k => booly (lookupV data k)
  | Option.none =>
    match f.checked with
    | some v => pyTruthy v
    | Option.none => booly (lookupV data (strOr2 f.value_from f.name))

/-- Claim C3: for every checkbox FieldSpec and ValueMap, the resolved check
state follows the priority chain `checked_from` lookup (coerced), else
literal `checked`, else `value_from`-or-`name` lookup (coerced). -/
theorem checkbox_check_priority (f : LField) (data : List (String × PyVal)) :
    resolveChecked f data = specCheckState f data := by
  unfold resolveChecked resolveCheckedVal specCheckState
  cases f.checked_from with
  | some k => rfl
  | none =>
    cases f.checked with
    | some v => rfl
    | none => rfl

/-- Claim C3 witness: a checkbox with both `checked_from` and a literal
`checked` present resolves by the `checked_from` lookup. -/
theorem checkbox_check_priority_witness :
    resolveChecked { checked := some (.bool false), checked_from := some (some "agree") }
        [("agree", .str "X")] =
      specCheckState { checked := some (.bool false), checked_from := some (some "agree") }
        [("agree", .str "X")] :=
  checkbox_check_priority _ _

/-- Claim C4: boolean coercion returns true exactly when the stripped,
lowercased string form of the input is one of the nine truthy tokens;
everything else — the empty string, "0", "no", `None`, booleans `False`,
zero, byte payloads, arbitrary strings — coerces to false. -/
theorem booly_token_set (x : PyVal) :
    booly x = true ↔
      pyLower (pyStrip (pyStr x)) ∈
        ["1", "true", "ja", "yes", "y", "on", "x", "✓", "checked"] := by
  cases x with
  | none => decide
  | bool b => cases b <;> decide
  | bytes id =>
    simp only [show booly (.bytes id) = false from rfl,
               show pyStr (.bytes id) = "bytes" from rfl]
    decide
  | str s =>
    by_cases hs : s = ""
    · subst hs; decide
    · simp only [booly, pyOr, pyTruthy, pyStr, hs, decide_eq_true_eq,
                 if_pos (by simp [hs] : (decide ¬s = "") = true)]
      constructor <;> intro h <;> simp_all [List.mem_cons] <;> tauto
  | int n =>
    by_cases hn : n = 0
    · subst hn; decide
    · simp only [booly, pyOr, pyTruthy, pyStr, hn, decide_eq_true_eq,
                 if_pos (by simp [hn] : (decide ¬n = 0) = true)]
      constructor <;> intro h <;> simp_all [List.mem_cons] <;> tauto

/-- Claim C5: for positive source and box dimensions, the fit computation
(in both its layout-renderer and signature-block incarnations, which agree
off the degenerate case) stays inside the box and preserves the source
aspect ratio exactly, while stretch fills the box exactly. -/
theorem fit_inside_box_aspect (wImg hImg boxW boxH : ℚ)
    (hw : 0 < wImg) (hh : 0 < hImg) (_hbw : 0 < boxW) (_hbh : 0 < boxH) :
    (fitLayout wImg hImg boxW boxH).1 ≤ boxW ∧
    (fitLayout wImg hImg boxW boxH).2 ≤ boxH ∧
    (fitLayout wImg hImg boxW boxH).2 * wImg = (fitLayout wImg hImg boxW boxH).1 * hImg ∧
    fitSig wImg hImg boxW boxH = fitLayout wImg hImg boxW boxH ∧
    scaleDims "stretch" wImg hImg boxW boxH = (boxW, boxH) := by
  have hw0 : wImg ≠ 0 := ne_of_gt hw
  have hh0 : hImg ≠ 0 := ne_of_gt hh
  have ha : 0 < hImg / wImg := div_pos hh hw
  have ha0 : hImg / wImg ≠ 0 := ne_of_gt ha
  have hstretch : scaleDims "stretch" wImg hImg boxW boxH = (boxW, boxH) := by
    simp [scaleDims]
  simp only [fitLayout, fitSig, layoutAspect, sigAspect, if_neg hw0, if_neg ha0]
  by_cases hclamp : boxW * (hImg / wImg) > boxH
  · simp only [if_pos hclamp]
    refine ⟨?_, le_refl _, ?_, trivial, hstretch⟩
    · rw [div_le_iff₀ ha]
      exact le_of_lt hclamp
    · field_simp
  · simp only [if_neg hclamp]
    refine ⟨le_refl _, not_lt.mp hclamp, ?_, trivial, hstretch⟩
    field_simp

/-- Claim C5 witness: Scenario D — a 300×100 source into a 150×40 box fits
to 120×40, inside the box and aspect-locked; stretch yields the box. -/
theorem fit_inside_box_aspect_witness :
    ((0 : ℚ) < 300 ∧ (0 : ℚ) < 100 ∧ (0 : ℚ) < 150 ∧ (0 : ℚ) < 40) ∧
    ((fitLayout 300 100 150 40).1 ≤ 150 ∧
     (fitLayout 300 100 150 40).2 ≤ 40 ∧
     (fitLayout 300 100 150 40).2 * 300 = (fitLayout 300 100 150 40).1 * 100 ∧
     fitSig 300 100 150 40 = fitLayout 300 100 150 40 ∧
     scaleDims "stretch" 300 100 150 40 = (150, 40)) :=
  ⟨⟨by norm_num, by norm_num, by norm_num, by norm_num⟩,
   fit_inside_box_aspect 300 100 150 40 (by norm_num) (by norm_num) (by norm_num) (by norm_num)⟩

/-- Claim C6 counterexample: in the layout renderer's fit branch a source
width of 0 does not yield aspect 1.0 — `h_img / float(w_img or 1)` divides
the height by the substituted 1, so a 0×7 source gives aspect 7, and
fitting it into a wide 100×1000 box yields 100×700, not the 100×100 the
claim predicts. -/
theorem degenerate_aspect_counterexample :
    layoutAspect 0 7 = 7 ∧ ¬ layoutAspect 0 7 = 1 ∧
    fitLayout 0 7 100 1000 = (100, 700) ∧ ¬ fitLayout 0 7 100 1000 = (100, 100) := by
  refine ⟨?_, ?_, ?_, ?_⟩ <;> norm_num [layoutAspect, fitLayout]

/-- Claim C6 amended: when the source width is 0, the signature-block fit
(`signature_utils.build_signature_block`) uses aspect 1.0, but the layout
renderer's fit (`_render_by_layout_json`) substitutes 1 for the width and
uses aspect equal to the source height. -/
theorem degenerate_aspect_amended (hImg : ℚ) :
    sigAspect 0 hImg = 1 ∧ layoutAspect 0 hImg = hImg := by
  constructor <;> simp [sigAspect, layoutAspect]

/-- A field-shaped artifact: its anchor and extent on the page, and whether
it is a live interactive widget or a static drawing. -/
structure Artifact where
  ax : ℚ
  ay : ℚ
  aw : ℚ
  ah : ℚ
  live : Bool
  deriving DecidableEq, Repr

/-- Classify one drawing operation as the field-shaped artifact it renders,
if any: a live widget, or a flattened field's static stand-in (the checkbox
square, the drawn value string — recorded at its pen position with zero
extent — or the wrapped paragraph).  Font changes, tinted placeholder
underlays, images, lines and page operations are not field-shaped. -/
def fieldShaped : Op → Option Artifact
  | .rect x y w h _ => some ⟨x, y, w, h, false⟩
  | .paragraph x y w h _ => some ⟨x, y, w, h, false⟩
  | .drawString x y _ => some ⟨x, y, 0, 0, false⟩
  | .acroCheckbox _ x y s _ => some ⟨x, y, s, s, true⟩
  | .acroTextfield _ x y w h _ _ => some ⟨x, y, w, h, true⟩
  | _ => Option.none

/-- The primary field-shaped artifact one FieldSpec emits: the first
classified operation among the field's own drawing operations. -/
def primaryArtifact (cfg : RenderCfg) (f : LField) : Option Artifact :=
  match renderFieldOps cfg f with
  | .ok ops => ops.findSome? fieldShaped
  | .error _ => Option.none

/-- Every field-shaped artifact one FieldSpec emits, in drawing order. -/
def fieldArtifacts (cfg : RenderCfg) (f : LField) : List Artifact :=
  match renderFieldOps cfg f with
  | .ok ops => ops.filterMap fieldShaped
  | .error _ => []

/-- Claim C1 counterexample, refuting both halves of the claim.
Coordinates: Scenario A/B — one text field declared at `(100, 700, 200, 16)`
bound to "Jane Doe"; flattened rendering draws the value at the inset pen
position `(101, 704)` while interactive rendering places the widget at the
declared `(100, 700)`: not the same coordinates.  Counts: a checked
checkbox at `(50, 60, 12, 18)` flattens to two field-shaped drawings (the
box square and the check glyph) against a single interactive widget: not
the same number of artifacts. -/
theorem flatten_parity_counterexample :
    (primaryArtifact { flatten := true, data := [("person_name", .str "Jane Doe")] }
        { ftype := some "text", name := some "person_name",
          x := some 100, y := some 700, w := some 200, h := some 16 }
      = some ⟨101, 704, 0, 0, false⟩ ∧
     primaryArtifact { flatten := false, data := [("person_name", .str "Jane Doe")] }
        { ftype := some "text", name := some "person_name",
          x := some 100, y := some 700, w := some 200, h := some 16 }
      = some ⟨100, 700, 200, 16, true⟩ ∧
     ¬ ((101 : ℚ), (704 : ℚ)) = ((100 : ℚ), (700 : ℚ))) ∧
    ((fieldArtifacts { flatten := true, data := [("agree", .str "x")] }
        { ftype := some "checkbox", name := some "agree",
          x := some 50, y := some 60, w := some 12, h := some 18 }).length = 2 ∧
     (fieldArtifacts { flatten := false, data := [("agree", .str "x")] }
        { ftype := some "checkbox", name := some "agree",
          x := some 50, y := some 60, w := some 12, h := some 18 }).length = 1 ∧
     (2 : Nat) ≠ 1) := by
  have h1 : primaryArtifact { flatten := true, data := [("person_name", .str "Jane Doe")] }
      { ftype := some "text", name := some "person_name",
        x := some 100, y := some 700, w := some 200, h := some 16 }
      = some ⟨100 + 1, 700 + 16 - 12, 0, 0, false⟩ := rfl
  have h2 : primaryArtifact { flatten := false, data := [("person_name", .str "Jane Doe")] }
      { ftype := some "text", name := some "person_name",
        x := some 100, y := some 700, w := some 200, h := some 16 }
      = some ⟨100, 700, 200, 16, true⟩ := rfl
  refine ⟨⟨?_, h2, by norm_num⟩, rfl, rfl, by decide⟩
  rw [h1]
  norm_num

/-- Claim C1 amended: for every LayoutDocument field with its box present
and every ValueMap, the full lists of field-shaped artifacts are: a text,
textarea or unrecognized-kind field emits exactly one artifact in either
mode — the interactive widget at the declared `(x, y, w, h)`, the
flattened stand-in inside the same box at a fixed inset (text pen at
`(x+1, y+h-12)`, textarea paragraph at `(x+1, y+1)` sized `(w-2, h-2)`);
a checkbox emits exactly one interactive artifact (the widget square of
side `min w h` at `(x, y)`) while flattening emits the identical square
as a static box plus, exactly when checked, one check-glyph drawing at
`(x+2, y+1)`; apart from these insets and the glyph, the modes differ
only in live versus static. -/
theorem flatten_parity_amended (cfg : RenderCfg) (f : LField) (x y w h : ℚ)
    (hx : f.x = some x) (hy : f.y = some y) (hw : f.w = some w) (hh : f.h = some h) :
    (kindOf f = "checkbox" →
      fieldArtifacts { cfg with flatten := true } f =
        ⟨x, y, min w h, min w h, false⟩ ::
          (if resolveChecked f cfg.data then [⟨x + 2, y + 1, 0, 0, false⟩] else []) ∧
      fieldArtifacts { cfg with flatten := false } f = [⟨x, y, min w h, min w h, true⟩]) ∧
    ((kindOf f = "textarea" ∨ kindOf f = "multiline") →
      fieldArtifacts { cfg with flatten := true } f = [⟨x + 1, y + 1, w - 2, h - 2, false⟩] ∧
      fieldArtifacts { cfg with flatten := false } f = [⟨x, y, w, h, true⟩]) ∧
    (¬ kindOf f ∈ ["label", "line", "rect", "image", "checkbox", "textarea", "multiline"] →
      fieldArtifacts { cfg with flatten := true } f = [⟨x + 1, y + h - 12, 0, 0, false⟩] ∧
      fieldArtifacts { cfg with flatten := false } f = [⟨x, y, w, h, true⟩]) := by
  have hbox : getBox f = .ok (x, y, w, h) := by
    simp [getBox, hx, hy, hw, hh]
  refine ⟨fun hk => ?_, fun hk => ?_, fun hk => ?_⟩
  · constructor
    · cases hch : resolveChecked f cfg.data <;>
        simp [fieldArtifacts, renderFieldOps, fieldBodyOps, hk, hbox, hch, fieldShaped,
              List.filterMap]
    · cases hdb : cfg.draw_boxes <;>
        simp [fieldArtifacts, renderFieldOps, fieldBodyOps, hk, hbox, hdb, fieldShaped,
              List.filterMap]
  · constructor
    · rcases hk with hk | hk <;>
        simp [fieldArtifacts, renderFieldOps, fieldBodyOps, hk, hbox, fieldShaped,
              List.filterMap]
    · rcases hk with hk | hk <;>
        cases hdb : cfg.draw_boxes <;>
        simp [fieldArtifacts, renderFieldOps, fieldBodyOps, hk, hbox, hdb, fieldShaped,
              List.filterMap]
  · simp only [List.mem_cons, List.mem_singleton] at hk
    push_neg at hk
    obtain ⟨h1, h2, h3, h4, h5, h6, h7⟩ := hk
    constructor
    · simp [fieldArtifacts, renderFieldOps, fieldBodyOps, h1, h2, h3, h4, h5, h6, h7,
            hbox, fieldShaped, List.filterMap]
    · cases hdb : cfg.draw_boxes <;>
        simp [fieldArtifacts, renderFieldOps, fieldBodyOps, h1, h2, h3, h4, h5, h6, h7,
              hbox, hdb, fieldShaped, List.filterMap]

/-- Claim C1 amended witness: a concrete checkbox field at `(50, 60, 12, 18)`
bound to a truthy value — flattening emits the `min 12 18` static square at
`(50, 60)` plus the check glyph, interactive rendering exactly the one
widget square at the same place. -/
theorem flatten_parity_amended_witness :
    (({ ftype := some "checkbox", name := some "agree",
        x := some 50, y := some 60, w := some 12, h := some 18 } : LField).x = some 50 ∧
     ({ ftype := some "checkbox", name := some "agree",
        x := some 50, y := some 60, w := some 12, h := some 18 } : LField).y = some 60 ∧
     kindOf { ftype := some "checkbox", name := some "agree",
              x := some 50, y := some 60, w := some 12, h := some 18 } = "checkbox") ∧
    (fieldArtifacts { data := [("agree", .str "x")], flatten := true }
        { ftype := some "checkbox", name := some "agree",
          x := some 50, y := some 60, w := some 12, h := some 18 }
        = ⟨50, 60, min 12 18, min 12 18, false⟩ ::
            (if resolveChecked
                { ftype := some "checkbox", name := some "agree",
                  x := some 50, y := some 60, w := some 12, h := some 18 }
                [("agree", .str "x")] then
              [⟨50 + 2, 60 + 1, 0, 0, false⟩]
            else []) ∧
     fieldArtifacts { data := [("agree", .str "x")], flatten := false }
        { ftype := some "checkbox", name := some "agree",
          x := some 50, y := some 60, w := some 12, h := some 18 }
        = [⟨50, 60, min 12 18, min 12 18, true⟩]) :=
  ⟨⟨rfl, rfl, rfl⟩,
   (flatten_parity_amended { data := [("agree", .str "x")] }
      { ftype := some "checkbox", name := some "agree",
        x := some 50, y := some 60, w := some 12, h := some 18 }
      50 60 12 18 rfl rfl rfl rfl).1 rfl⟩

theorem countSP_append (a b : List Op) : countSP (a ++ b) = countSP a + countSP b := by
  induction a with
  | nil => simp [countSP]
  | cons o rest ih => cases o <;> (simp [countSP, ih]; try omega)

theorem countSP_bgOps (cfg : RenderCfg) (i : Nat) : countSP (bgOps cfg i) = 0 := by
  unfold bgOps
  split <;> rfl

theorem fieldBodyOps_no_boundary (cfg : RenderCfg) (f : LField) (x y w h : ℚ) :
    countSP (fieldBodyOps cfg f x y w h) = 0 := by
  unfold fieldBodyOps
  by_cases hrect : kindOf f = "rect"
  · rw [if_pos hrect]
    rfl
  rw [if_neg hrect]
  by_cases him : kindOf f = "image"
  · rw [if_pos him]
    dsimp only
    split
    · split
      · split <;> rfl
      all_goals rfl
    · rfl
  rw [if_neg him]
  by_cases hcb : kindOf f = "checkbox"
  · rw [if_pos hcb]
    dsimp only
    split
    · rw [countSP_append]
      split <;> rfl
    · rw [countSP_append]
      split <;> rfl
  rw [if_neg hcb]
  dsimp only
  split
  · split <;> rfl
  · rw [countSP_append]
    split <;> rfl

theorem renderFieldOps_no_boundary (cfg : RenderCfg) (f : LField) (ops : List Op)
    (hok : renderFieldOps cfg f = .ok ops) : countSP ops = 0 := by
  unfold renderFieldOps at hok
  by_cases hlab : kindOf f = "label"
  · rw [if_pos hlab] at hok
    cases hok
    rfl
  rw [if_neg hlab] at hok
  by_cases hlin : kindOf f = "line"
  · rw [if_pos hlin] at hok
    cases hok
    rfl
  rw [if_neg hlin] at hok
  split at hok
  · simp at hok
  · cases hok
    exact fieldBodyOps_no_boundary ..

theorem pageAdvance_spec (cfg : RenderCfg) (page : Int) :
    ∀ cp : Int, (pageAdvance cfg cp page).1 = max cp page ∧
      countSP (pageAdvance cfg cp page).2 = (page - cp).toNat := by
  suffices hs : ∀ (n : Nat) (cp : Int), (page - cp).toNat = n →
      (pageAdvance cfg cp page).1 = max cp page ∧
      countSP (pageAdvance cfg cp page).2 = (page - cp).toNat by
    intro cp
    exact hs (page - cp).toNat cp rfl
  intro n
  induction n with
  | zero =>
    intro cp hn
    have hng : ¬ page > cp := by omega
    rw [pageAdvance, dif_neg hng]
    constructor
    · simp
      omega
    · simp [countSP]
      omega
  | succ n ih =>
    intro cp hn
    have hg : page > cp := by omega
    rw [pageAdvance, dif_pos hg]
    dsimp only
    obtain ⟨ih1, ih2⟩ := ih (cp + 1) (by omega)
    constructor
    · rw [ih1]
      omega
    · rw [countSP_append, countSP_append, countSP_bgOps, ih2]
      simp [countSP]
      omega

theorem pagesTrace_ge (fs : List LField) : ∀ cp : Int, cp ≤ pagesTrace cp fs := by
  induction fs with
  | nil => intro cp; simp [pagesTrace]
  | cons f rest ih =>
    intro cp
    exact le_trans (le_max_left cp f.page) (ih (max cp f.page))

theorem pagesTrace_mono_append (l₁ l₂ : List LField) :
    ∀ cp : Int, pagesTrace cp l₁ ≤ pagesTrace cp (l₁ ++ l₂) := by
  induction l₁ with
  | nil => intro cp; simpa [pagesTrace] using pagesTrace_ge l₂ cp
  | cons f rest ih => intro cp; exact ih (max cp f.page)

theorem pagesTrace_le (fs : List LField) :
    ∀ (cp m : Int), cp ≤ m → (∀ f ∈ fs, f.page ≤ m) → pagesTrace cp fs ≤ m := by
  induction fs with
  | nil => intro cp m hcp _; simpa [pagesTrace] using hcp
  | cons f rest ih =>
    intro cp m hcp hall
    exact ih (max cp f.page) m (max_le hcp (hall f (by simp)))
      (fun g hg => hall g (by simp [hg]))

theorem pagesTrace_ge_mem (fs : List LField) :
    ∀ (cp : Int), ∀ f ∈ fs, f.page ≤ pagesTrace cp fs := by
  induction fs with
  | nil => simp
  | cons f rest ih =>
    intro cp g hg
    rcases List.mem_cons.mp hg with rfl | hg
    · exact le_trans (le_max_right cp g.page) (pagesTrace_ge rest (max cp g.page))
    · exact ih (max cp f.page) g hg

theorem getBox_ok_iff (f : LField) :
    (∃ q, getBox f = .ok q) ↔ (f.x.isSome ∧ f.y.isSome ∧ f.w.isSome ∧ f.h.isSome) := by
  unfold getBox
  cases f.x <;> cases f.y <;> cases f.w <;> cases f.h <;> simp

theorem renderFieldOps_ok_iff (cfg : RenderCfg) (f : LField) :
    (∃ ops, renderFieldOps cfg f = .ok ops) ↔ structOkB f = true := by
  unfold renderFieldOps structOkB
  by_cases hlab : kindOf f = "label"
  · simp [hlab]
  by_cases hlin : kindOf f = "line"
  · simp [hlab, hlin]
  cases hgb : getBox f with
  | error e =>
    have hmiss : ¬ (f.x.isSome ∧ f.y.isSome ∧ f.w.isSome ∧ f.h.isSome) := by
      intro hc
      obtain ⟨q, hq⟩ := (getBox_ok_iff f).2 hc
      rw [hq] at hgb
      cases hgb
    simp [hlab, hlin, hgb, hmiss]
  | ok q =>
    have hbox : f.x.isSome ∧ f.y.isSome ∧ f.w.isSome ∧ f.h.isSome :=
      (getBox_ok_iff f).1 ⟨q, hgb⟩
    obtain ⟨x, y, w, h⟩ := q
    simp [hlab, hlin, hgb, hbox]

theorem renderLoop_ok_iff (cfg : RenderCfg) :
    ∀ (fs : List LField) (cp : Int),
      (∃ ops, renderLoop cfg cp fs = .ok ops) ↔ ∀ f ∈ fs, structOkB f = true := by
  intro fs
  induction fs with
  | nil => intro cp; simp [renderLoop]
  | cons f rest ih =>
    intro cp
    constructor
    · rintro ⟨ops, hops⟩
      unfold renderLoop at hops
      dsimp only at hops
      cases hf : renderFieldOps cfg f with
      | error e => rw [hf] at hops; simp at hops
      | ok fops =>
        rw [hf] at hops
        cases hr : renderLoop cfg (pageAdvance cfg cp f.page).1 rest with
        | error e => rw [hr] at hops; simp at hops
        | ok rops =>
          intro g hg
          rcases List.mem_cons.mp hg with rfl | hg
          · exact (renderFieldOps_ok_iff cfg g).1 ⟨fops, hf⟩
          · exact ((ih (pageAdvance cfg cp f.page).1).1 ⟨rops, hr⟩) g hg
    · intro hall
      obtain ⟨fops, hf⟩ := (renderFieldOps_ok_iff cfg f).2 (hall f (by simp))
      obtain ⟨rops, hr⟩ :=
        (ih (pageAdvance cfg cp f.page).1).2 (fun g hg => hall g (by simp [hg]))
      refine ⟨(pageAdvance cfg cp f.page).2 ++ fops ++ rops, ?_⟩
      unfold renderLoop
      dsimp only
      rw [hf, hr]

theorem renderLoop_count (cfg : RenderCfg) :
    ∀ (fs : List LField) (cp : Int), (∀ f ∈ fs, structOkB f = true) →
      ∃ ops, renderLoop cfg cp fs = .ok ops ∧
        (countSP ops : Int) = pagesTrace cp fs - cp := by
  intro fs
  induction fs with
  | nil =>
    intro cp _
    exact ⟨[], rfl, by simp [pagesTrace, countSP]⟩
  | cons f rest ih =>
    intro cp hall
    obtain ⟨fops, hf⟩ := (renderFieldOps_ok_iff cfg f).2 (hall f (by simp))
    obtain ⟨rops, hr, hcount⟩ :=
      ih (pageAdvance cfg cp f.page).1 (fun g hg => hall g (by simp [hg]))
    refine ⟨(pageAdvance cfg cp f.page).2 ++ fops ++ rops, ?_, ?_⟩
    · unfold renderLoop
      dsimp only
      rw [hf, hr]
    · obtain ⟨hfst, hsnd⟩ := pageAdvance_spec cfg f.page cp
      have hP : max cp f.page ≤ pagesTrace (max cp f.page) rest := pagesTrace_ge rest _
      have hfo : countSP fops = 0 := renderFieldOps_no_boundary cfg f fops hf
      have hPT : pagesTrace cp (f :: rest) = pagesTrace (max cp f.page) rest := rfl
      rw [countSP_append, countSP_append, hsnd, hfo, hPT]
      rw [hfst] at hcount
      push_cast at hcount ⊢
      omega

theorem renderByLayout_ok_iff (cfg : RenderCfg) (L : Layout) :
    (∃ ops, renderByLayout cfg L = .ok ops) ↔ ∀ f ∈ L.fields, structOkB f = true := by
  rw [← renderLoop_ok_iff { cfg with draw_boxes := L.draw_boxes, backgrounds := L.backgrounds }
        L.fields 1]
  unfold renderByLayout
  dsimp only
  cases hr : renderLoop { cfg with draw_boxes := L.draw_boxes, backgrounds := L.backgrounds }
      1 L.fields with
  | error e => simp [hr]
  | ok ops => simp [hr]

/-- Claim C9: a render call either returns a complete operation stream or
fails on a structural error (a FieldSpec missing its required box) with no
stream produced — the model returns `Except.error` carrying no operations —
and success is decided by structural well-formedness alone: the image
decode oracle and the background-load oracle never affect it. -/
theorem render_atomic_structural (layoutOpt : Option Layout) (rcfg : RenderCfg) (acfg : AutoCfg)
    (schema : Schema) :
    ((∃ ops, buildInteractivePdf layoutOpt rcfg acfg schema = .ok ops) ↔
      (∀ L, layoutOpt = some L → ∀ f ∈ L.fields, structOkB f = true)) ∧
    (∀ (d₁ d₂ : Nat → Bool → Option (ℚ × ℚ)) (b₁ b₂ : Nat → Bool),
      ((∃ ops, buildInteractivePdf layoutOpt { rcfg with decodeImg := d₁, bgOk := b₁ }
          acfg schema = .ok ops) ↔
       (∃ ops, buildInteractivePdf layoutOpt { rcfg with decodeImg := d₂, bgOk := b₂ }
          acfg schema = .ok ops))) := by
  have hmain : ∀ (c : RenderCfg),
      (∃ ops, buildInteractivePdf layoutOpt c acfg schema = .ok ops) ↔
        (∀ L, layoutOpt = some L → ∀ f ∈ L.fields, structOkB f = true) := by
    intro c
    cases layoutOpt with
    | none => simp [buildInteractivePdf]
    | some L =>
      simp only [buildInteractivePdf]
      rw [renderByLayout_ok_iff c L]
      constructor
      · intro hall L' hL'
        cases hL'
        exact hall
      · intro hall
        exact hall L rfl
  refine ⟨hmain rcfg, fun d₁ d₂ b₁ b₂ => ?_⟩
  rw [hmain { rcfg with decodeImg := d₁, bgOk := b₁ },
      hmain { rcfg with decodeImg := d₂, bgOk := b₂ }]

/-- Claim C7: for a layout document whose field list is sorted in
non-decreasing page order (pages ≥ 1, nonempty, structurally well-formed),
the page cursor never moves backward — its value after any prefix of the
pass is at most its value after the whole pass — and the finished document
has exactly `max(field.page)` page boundaries: the loop emits
`max(page) - 1` `showPage` boundaries and `Canvas.save` closes the final
page, so `countSP + 1` equals the maximum page. -/
theorem page_monotone_boundaries (cfg : RenderCfg) (L : Layout)
    (_hsort : L.fields.Chain' (fun a b => a.page ≤ b.page))
    (hpos : ∀ f ∈ L.fields, 1 ≤ f.page)
    (_hne : L.fields ≠ [])
    (hok : ∀ f ∈ L.fields, structOkB f = true) :
    (∀ l₁ l₂, L.fields = l₁ ++ l₂ → pagesTrace 1 l₁ ≤ pagesTrace 1 L.fields) ∧
    (∀ m : Int, (∀ f ∈ L.fields, f.page ≤ m) → (∃ f ∈ L.fields, f.page = m) →
      ∃ ops, renderByLayout cfg L = .ok ops ∧ (countSP ops : Int) + 1 = m) := by
  constructor
  · intro l₁ l₂ hsplit
    rw [hsplit]
    exact pagesTrace_mono_append l₁ l₂ 1
  · intro m hub hmem
    obtain ⟨f₀, hf₀, hf₀m⟩ := hmem
    have h1m : (1 : Int) ≤ m := hf₀m ▸ hpos f₀ hf₀
    have hle : pagesTrace 1 L.fields ≤ m := pagesTrace_le L.fields 1 m h1m hub
    have hge : m ≤ pagesTrace 1 L.fields := hf₀m ▸ pagesTrace_ge_mem L.fields 1 f₀ hf₀
    have hmax : pagesTrace 1 L.fields = m := le_antisymm hle hge
    obtain ⟨ops, hloop, hcount⟩ :=
      renderLoop_count { cfg with draw_boxes := L.draw_boxes, backgrounds := L.backgrounds }
        L.fields 1 hok
    refine ⟨[Op.setFont "Helvetica" 10] ++
      bgOps { cfg with draw_boxes := L.draw_boxes, backgrounds := L.backgrounds } 0 ++ ops, ?_, ?_⟩
    · unfold renderByLayout
      dsimp only
      rw [hloop]
    · rw [countSP_append, countSP_append, countSP_bgOps]
      rw [hmax] at hcount
      have hz : countSP [Op.setFont "Helvetica" 10] = 0 := rfl
      rw [hz]
      push_cast at hcount ⊢
      omega

/-- Claim C7 witness: two well-formed fields on pages 1 and 2 — the pass
emits one `showPage`, and with the final save boundary the document has
exactly `max(page) = 2` page boundaries. -/
theorem page_monotone_boundaries_witness :
    (List.Chain' (fun a b => a.page ≤ b.page)
        [({ ftype := some "text", name := some "a", page := 1,
            x := some 10, y := some 20, w := some 30, h := some 40 } : LField),
         { ftype := some "checkbox", name := some "b", page := 2,
           x := some 10, y := some 20, w := some 12, h := some 12 }] ∧
     ([({ ftype := some "text", name := some "a", page := 1,
          x := some 10, y := some 20, w := some 30, h := some 40 } : LField),
       { ftype := some "checkbox", name := some "b", page := 2,
         x := some 10, y := some 20, w := some 12, h := some 12 }] : List LField) ≠ []) ∧
    (∃ ops, renderByLayout {}
        { draw_boxes := true,
          fields :=
            [{ ftype := some "text", name := some "a", page := 1,
               x := some 10, y := some 20, w := some 30, h := some 40 },
             { ftype := some "checkbox", name := some "b", page := 2,
               x := some 10, y := some 20, w := some 12, h := some 12 }],
          backgrounds := [] } = .ok ops ∧ (countSP ops : Int) + 1 = 2) := by
  refine ⟨⟨by simp [List.chain'_cons], by simp⟩, ?_⟩
  exact (page_monotone_boundaries {}
      { draw_boxes := true,
        fields :=
          [{ ftype := some "text", name := some "a", page := 1,
             x := some 10, y := some 20, w := some 30, h := some 40 },
           { ftype := some "checkbox", name := some "b", page := 2,
             x := some 10, y := some 20, w := some 12, h := some 12 }],
        backgrounds := [] }
      (by simp [List.chain'_cons]) (by decide) (by simp) (by decide)).2 2 (by decide) (by decide)

/-- Claim C10: even on an unsorted field list the page cursor is
non-decreasing: a well-formed field whose page lies below the current page
advances nothing — the while loop emits no boundary and leaves the cursor
unchanged — and the field still renders without error on the current page;
in general the cursor after any list is at least its starting value. -/
theorem backward_page_kept (cfg : RenderCfg) (f : LField) (cp : Int)
    (hlt : f.page < cp) (hok : structOkB f = true) :
    pageAdvance cfg cp f.page = (cp, []) ∧
    (∃ ops, renderFieldOps cfg f = .ok ops ∧ countSP ops = 0) ∧
    (∀ (fs : List LField) (c : Int), c ≤ pagesTrace c fs) := by
  refine ⟨?_, ?_, fun fs c => pagesTrace_ge fs c⟩
  · rw [pageAdvance, dif_neg (by omega)]
  · obtain ⟨ops, hops⟩ := (renderFieldOps_ok_iff cfg f).2 hok
    exact ⟨ops, hops, renderFieldOps_no_boundary cfg f ops hops⟩

/-- Claim C10 witness: a page-1 text field met while the cursor is on
page 3 emits no boundary and renders successfully. -/
theorem backward_page_kept_witness :
    (({ ftype := some "text", name := some "a", page := 1,
        x := some 10, y := some 20, w := some 30, h := some 40 } : LField).page < 3 ∧
     structOkB { ftype := some "text", name := some "a", page := 1,
                 x := some 10, y := some 20, w := some 30, h := some 40 } = true) ∧
    (pageAdvance {} 3
        ({ ftype := some "text", name := some "a", page := 1,
           x := some 10, y := some 20, w := some 30, h := some 40 } : LField).page = (3, []) ∧
     (∃ ops, renderFieldOps {}
         { ftype := some "text", name := some "a", page := 1,
           x := some 10, y := some 20, w := some 30, h := some 40 } = .ok ops ∧
         countSP ops = 0) ∧
     (∀ (fs : List LField) (c : Int), c ≤ pagesTrace c fs)) :=
  ⟨⟨by decide, by decide⟩,
   backward_page_kept {}
     { ftype := some "text", name := some "a", page := 1,
       x := some 10, y := some 20, w := some 30, h := some 40 } 3
     (by decide) (by decide)⟩

/-- A drawing operation that renders a box outline or filled box. -/
def isBoxDraw : Op → Bool
  | .rect _ _ _ _ _ => true
  | .fillBox _ _ _ _ => true
  | _ => false

/-- A drawn text string. -/
def isTextDraw : Op → Bool
  | .drawString _ _ _ => true
  | _ => false

/-- Claim C2 counterexample: on a schema with no sections and no misc
entries, the auto-layout renderer's entire output is the three-operation
title block — it contains no box outline at all and no drawn string other
than the title, so no signature caption and no outline guide box are drawn
as the final content. -/
theorem auto_trailing_counterexample :
    autoOps {} {} = [Op.setFont "Helvetica-Bold" 14,
      Op.drawString 40 (106920 / 127 - 36) "Interactive Form",
      Op.setFont "Helvetica" 10] ∧
    (autoOps {} {}).filter isBoxDraw = [] ∧
    ((autoOps {} {}).filter isTextDraw).length = 1 :=
  ⟨rfl, rfl, rfl⟩

/-- Claim C2 amended: the auto-layout renderer appends no signature caption
and no outline guide box; for a schema with no sections and no misc
entries (for any options, translations, values and mode) the document is
exactly the title block, which draws no box. -/
theorem auto_trailing_amended (cfg : AutoCfg) :
    autoOps cfg { sections := [], stadt_default := false, date_placeholder := false } =
      titleOps cfg ∧
    (titleOps cfg).filter isBoxDraw = [] := by
  constructor
  · simp [autoOps, rowsOf, runRows]
  · rfl

/-- The page-coordinate at the bottom edge of what an operation draws (the
anchor `y`; all artifacts extend upward from it in this layout).  Font and
page operations draw nothing. -/
def opBottom : Op → Option ℚ
  | .drawString _ y _ => some y
  | .drawLine _ y1 _ y2 _ => some (min y1 y2)
  | .rect _ y _ _ _ => some y
  | .fillBox _ y _ _ => some y
  | .drawImage _ y _ _ => some y
  | .paragraph _ y _ _ _ => some y
  | .acroCheckbox _ _ y _ _ => some y
  | .acroTextfield _ _ y _ _ _ _ => some y
  | _ => Option.none

/-- Claim C8: every auto-layout row checks the remaining vertical space
before drawing; a row that emits no page break draws all of its content at
or above the configured bottom margin — content can fall below the margin
only after the row has first emitted a page break. -/
theorem auto_bottom_margin_safe (cfg : AutoCfg) (schema : Schema) (r : Row)
    (_hr : r ∈ rowsOf cfg.i18n schema) (y : ℚ)
    (hnb : Op.showPage ∉ (stepRow cfg y r).2) :
    ∀ op ∈ (stepRow cfg y r).2, ∀ b, opBottom op = some b → cfg.bottomMargin ≤ b := by
  cases r with
  | gap d =>
    intro op hop
    simp [stepRow] at hop
  | secTitle t =>
    by_cases hc : y - 20 < cfg.bottomMargin
    · exact absurd (by simp [stepRow, hc, newPageOps]) hnb
    · simp [stepRow, hc, opBottom]
      all_goals linarith [not_lt.mp hc]
  | rtext label nm =>
    by_cases hc : y - 18 < cfg.bottomMargin
    · exact absurd (by simp [stepRow, hc, newPageOps]) hnb
    · cases hfl : cfg.flatten <;> cases hdb : cfg.dB <;>
        simp [stepRow, hc, hfl, hdb, opBottom] <;>
        repeat' constructor
      all_goals linarith [not_lt.mp hc]
  | rtextarea label nm rows =>
    by_cases hc : y - max (16 * (rows : ℚ) + 4) 36 < cfg.bottomMargin
    · exact absurd (by simp [stepRow, hc, newPageOps]) hnb
    · cases hfl : cfg.flatten <;> cases hdb : cfg.dB <;>
        simp [stepRow, hc, hfl, hdb, opBottom] <;>
        repeat' constructor
      all_goals linarith [not_lt.mp hc, le_max_right (16 * (rows : ℚ) + 4) 36]
  | rcheckbox label nm =>
    by_cases hc : y - 18 < cfg.bottomMargin
    · exact absurd (by simp [stepRow, hc, newPageOps]) hnb
    · cases hfl : cfg.flatten <;> cases hdb : cfg.dB <;>
        cases hch : booly ((cfg.data.lookup nm).getD .none) <;>
        simp [stepRow, hc, hfl, hdb, hch, opBottom] <;>
        repeat' constructor
      all_goals linarith [not_lt.mp hc]
  | miscRow =>
    by_cases hc : y - 40 < cfg.bottomMargin
    · exact absurd (by simp [stepRow, hc, newPageOps]) hnb
    · cases hfl : cfg.flatten <;> cases hdb : cfg.dB <;>
        simp [stepRow, hc, hfl, hdb, opBottom] <;>
        repeat' constructor
      all_goals linarith [not_lt.mp hc]

/-- Claim C8 witness: with default options, a text row of the one-field
schema drawn at `y = 700` breaks no page and all its content sits at or
above the 36pt bottom margin. -/
theorem auto_bottom_margin_safe_witness :
    (Row.rtext "a" "s_a" ∈ rowsOf ([] : List (String × String))
        { sections := [{ key := "s", title_i18n := Option.none,
                         fields := [{ key := "a", ftype := Option.none,
                                      label_i18n := Option.none }] }],
          stadt_default := false, date_placeholder := false } ∧
     Op.showPage ∉ (stepRow {} 700 (Row.rtext "a" "s_a")).2) ∧
    (∀ op ∈ (stepRow {} 700 (Row.rtext "a" "s_a")).2, ∀ b, opBottom op = some b →
      (36 : ℚ) ≤ b) := by
  have hmem : Row.rtext "a" "s_a" ∈ rowsOf ([] : List (String × String))
      { sections := [{ key := "s", title_i18n := Option.none,
                       fields := [{ key := "a", ftype := Option.none,
                                    label_i18n := Option.none }] }],
        stadt_default := false, date_placeholder := false } := by
    simp [rowsOf, fieldRow, i18nGet, strOrD, pyLower, pyLowerChar]
  have hnb : Op.showPage ∉ (stepRow {} 700 (Row.rtext "a" "s_a")).2 := by
    norm_num [stepRow, newPageOps, AutoCfg.dB, AutoCfg.xLabel, AutoCfg.xField, AutoCfg.fieldW]
    exact ⟨by simp, by simp, by simp⟩
  exact ⟨⟨hmem, hnb⟩,
    auto_bottom_margin_safe {} _ (Row.rtext "a" "s_a") hmem 700 hnb⟩
